import Mathlib

/-
  Shallow embedding of the SafaOS ABI boundary-encoding layer
  (crate `safa-abi`), covering:
    - `src/errors.rs`   : `ErrorStatus`, `SysResult`
    - `src/ffi/slice.rs`: `Slice<T>`, `InvalidSliceError`, validation
    - `src/ffi/str.rs`  : `Str`, `InvalidStrError`, validation
    - `src/ffi/option.rs`: `OptZero<T>` and the `NotZeroable` capability

  The target is a 64-bit machine: `usize` is modelled as a `Nat`
  smaller than 2^64, `isize` as an `Int` in [-2^63, 2^63).
  Pointers are modelled by their address (a `Nat`); the null pointer
  is address 0.  Byte memory is modelled as a function from addresses
  to byte values.  Panicking functions return `Option`, with `none`
  modelling the panic; fallible functions return `Except`.
-/

namespace SafaAbi

/-- Value of `isize::MAX` on a 64-bit target. -/
def isizeMax : Nat := 2 ^ 63 - 1

/-- Value of `isize::MIN` on a 64-bit target. -/
def isizeMin : Int := -(2 ^ 63 : Int)

/-- Number of distinct `usize` values on a 64-bit target. -/
def usizeCard : Nat := 2 ^ 64

/-- Number of distinct `u16` values. -/
def u16Card : Nat := 2 ^ 16

/-- Rust cast `usize as isize`: reinterpret the 64-bit pattern as signed. -/
def usizeToIsize (p : Nat) : Int :=
  if p ≤ isizeMax then (p : Int) else (p : Int) - (2 ^ 64 : Int)

/-- Rust integer negation `-w` on `isize` with release (wrapping) semantics:
the only overflowing input is `isize::MIN`, which wraps to itself. -/
def isizeNegWrap (w : Int) : Int :=
  if w = isizeMin then isizeMin else -w

/-- Rust cast `isize as u16`: keep the low 16 bits of the two-complement
bit pattern. -/
def isizeToU16 (w : Int) : Nat :=
  (w % (2 ^ 16 : Int)).toNat

/-- Embeds `enum ErrorStatus` from `src/errors.rs` (`repr(u16)`,
discriminants 1 through 0x2A). -/
inductive ErrorStatus where
  | Generic
  | OperationNotSupported
  | NotSupported
  | Corrupted
  | InvalidSyscall
  | UnknownResource
  | InvalidPid
  | InvalidOffset
  | InvalidPtr
  | InvalidStr
  | StrTooLong
  | InvalidPath
  | NoSuchAFileOrDirectory
  | NotAFile
  | NotADirectory
  | AlreadyExists
  | NotExecutable
  | DirectoryNotEmpty
  | MissingPermissions
  | MMapError
  | Busy
  | NotEnoughArguments
  | OutOfMemory
  | InvalidTid
  | Timeout
  | InvalidCommand
  | InvalidArgument
  | Unknown
  | Panic
  | NotADevice
  | WouldBlock
  | ConnectionClosed
  | ConnectionRefused
  | UnsupportedResource
  | ResourceCloneFailed
  | TypeMismatch
  | TooShort
  | AddressNotFound
  | InvalidSize
  | ForceTerminated
  | AddressAlreadyInUse
  | NotBound
deriving DecidableEq, Repr

namespace ErrorStatus

/-- The `repr(u16)` discriminant of each variant, exactly as declared in
`src/errors.rs` (the cast `err as u16` / `err as isize`). -/
def toU16 : ErrorStatus → Nat
  | Generic => 1
  | OperationNotSupported => 2
  | NotSupported => 3
  | Corrupted => 4
  | InvalidSyscall => 5
  | UnknownResource => 6
  | InvalidPid => 7
  | InvalidOffset => 8
  | InvalidPtr => 9
  | InvalidStr => 0xA
  | StrTooLong => 0xB
  | InvalidPath => 0xC
  | NoSuchAFileOrDirectory => 0xD
  | NotAFile => 0xE
  | NotADirectory => 0xF
  | AlreadyExists => 0x10
  | NotExecutable => 0x11
  | DirectoryNotEmpty => 0x12
  | MissingPermissions => 0x13
  | MMapError => 0x14
  | Busy => 0x15
  | NotEnoughArguments => 0x16
  | OutOfMemory => 0x17
  | InvalidTid => 0x18
  | Timeout => 0x19
  | InvalidCommand => 0x1A
  | InvalidArgument => 0x1B
  | Unknown => 0x1C
  | Panic => 0x1D
  | NotADevice => 0x1E
  | WouldBlock => 0x1F
  | ConnectionClosed => 0x20
  | ConnectionRefused => 0x21
  | UnsupportedResource => 0x22
  | ResourceCloneFailed => 0x23
  | TypeMismatch => 0x24
  | TooShort => 0x25
  | AddressNotFound => 0x26
  | InvalidSize => 0x27
  | ForceTerminated => 0x28
  | AddressAlreadyInUse => 0x29
  | NotBound => 0x2A

/-- `ErrorStatus::MAX`: the discriminant of the last variant, `NotBound`. -/
def MAX : Nat := ErrorStatus.NotBound.toU16

/-- The variant holding a given in-range discriminant: this models the
`transmute` inside `try_from_u16`, which is only reached when
`0 < value && value <= MAX`; out-of-range inputs are never passed to it
(the default arm is arbitrary and unreachable from `try_from_u16`). -/
def ofCode : Nat → ErrorStatus
  | 1 => Generic
  | 2 => OperationNotSupported
  | 3 => NotSupported
  | 4 => Corrupted
  | 5 => InvalidSyscall
  | 6 => UnknownResource
  | 7 => InvalidPid
  | 8 => InvalidOffset
  | 9 => InvalidPtr
  | 0xA => InvalidStr
  | 0xB => StrTooLong
  | 0xC => InvalidPath
  | 0xD => NoSuchAFileOrDirectory
  | 0xE => NotAFile
  | 0xF => NotADirectory
  | 0x10 => AlreadyExists
  | 0x11 => NotExecutable
  | 0x12 => DirectoryNotEmpty
  | 0x13 => MissingPermissions
  | 0x14 => MMapError
  | 0x15 => Busy
  | 0x16 => NotEnoughArguments
  | 0x17 => OutOfMemory
  | 0x18 => InvalidTid
  | 0x19 => Timeout
  | 0x1A => InvalidCommand
  | 0x1B => InvalidArgument
  | 0x1C => Unknown
  | 0x1D => Panic
  | 0x1E => NotADevice
  | 0x1F => WouldBlock
  | 0x20 => ConnectionClosed
  | 0x21 => ConnectionRefused
  | 0x22 => UnsupportedResource
  | 0x23 => ResourceCloneFailed
  | 0x24 => TypeMismatch
  | 0x25 => TooShort
  | 0x26 => AddressNotFound
  | 0x27 => InvalidSize
  | 0x28 => ForceTerminated
  | 0x29 => AddressAlreadyInUse
  | 0x2A => NotBound
  | _ => Generic

/-- Embeds `ErrorStatus::try_from_u16`. -/
def try_from_u16 (value : Nat) : Option ErrorStatus :=
  if 0 < value ∧ value ≤ MAX then some (ofCode value) else none

/-- Embeds `ErrorStatus::from_u16`: fall back to `Unknown` on failure. -/
def from_u16 (value : Nat) : ErrorStatus :=
  match try_from_u16 value with
  | some k => k
  | none => Unknown

end ErrorStatus

/-- Embeds `struct SysResult(isize)` from `src/errors.rs`. -/
structure SysResult where
  val : Int
deriving DecidableEq, Repr

namespace SysResult

/-- Embeds `SysResult::err`: `Self(-(err as isize))`. -/
def err (e : ErrorStatus) : SysResult :=
  ⟨-(e.toU16 : Int)⟩

/-- Embeds `SysResult::into_result`: negative words carry an error code
equal to `(-word) as u16`, non-negative words carry the payload
`word as usize`. -/
def into_result (s : SysResult) : Except ErrorStatus Nat :=
  if s.val < 0 then
    .error (ErrorStatus.from_u16 (isizeToU16 (isizeNegWrap s.val)))
  else
    .ok s.val.toNat

/-- Embeds `SysResult::try_ok`: cast the payload to `isize` and reject it
when the result is negative. -/
def try_ok (value : Nat) : Option SysResult :=
  let v := usizeToIsize value
  if v < 0 then none else some ⟨v⟩

/-- Embeds `SysResult::ok`: delegate to `try_ok` and panic (modelled by
`none`) when it fails. -/
def ok (value : Nat) : Option SysResult :=
  match try_ok value with
  | some r => some r
  | none => none

/-- Embeds `SysResult::try_from_result`. -/
def try_from_result (result : Except ErrorStatus Nat) : Option SysResult :=
  match result with
  | .error e => some (err e)
  | .ok value => try_ok value

/-- Embeds `SysResult::as_isize`. -/
def as_isize (s : SysResult) : Int := s.val

/-- Embeds `SysResult::from_isize`. -/
def from_isize (w : Int) : SysResult := ⟨w⟩

end SysResult

/-- Embeds `enum InvalidSliceError` from `src/ffi/slice.rs`. -/
inductive InvalidSliceError where
  | PtrNotAligned
  | PtrIsNull
  | LenTooLarge
  | Other
deriving DecidableEq, Repr

/-- Embeds `InvalidSliceError::into_err`: `LenTooLarge` maps to
`StrTooLong`, every other variant maps to `InvalidPtr`. -/
def InvalidSliceError.into_err : InvalidSliceError → ErrorStatus
  | .LenTooLarge => ErrorStatus.StrTooLong
  | _ => ErrorStatus.InvalidPtr

/-- Embeds `struct Slice<T> { ptr, len }` from `src/ffi/slice.rs`: the
pointer is modelled by its address, null being address 0.  The element
type `T` is erased; where the code asks `ptr.is_aligned()` the alignment
of `T` is passed explicitly as a parameter. -/
structure Slice where
  ptr : Nat
  len : Nat
deriving DecidableEq, Repr

namespace Slice

/-- Embeds `Slice::from_raw_parts`: asserts that the pointer is non-null
and the length at most `isize::MAX` (`none` models the assertion
failing); no alignment check is performed. -/
def from_raw_parts (ptr len : Nat) : Option Slice :=
  if ptr ≠ 0 ∧ len ≤ isizeMax then some ⟨ptr, len⟩ else none

/-- Embeds `Slice::try_as_slice_mut_custom` for an element type of
alignment `align`: null check, then alignment check, then length check,
then the caller-supplied validator, in that order; on success the
produced Rust slice is the view with the same pointer and length,
represented by the `Slice` record itself. -/
def try_as_slice_mut_custom (align : Nat) (s : Slice) (validator : Nat → Bool) :
    Except InvalidSliceError Slice :=
  if s.ptr = 0 then .error .PtrIsNull
  else if ¬ s.ptr % align = 0 then .error .PtrNotAligned
  else if s.len > isizeMax then .error .LenTooLarge
  else if ¬ validator s.ptr then .error .Other
  else .ok s

/-- Embeds `Slice::try_as_slice_custom`: match-delegation to
`try_as_slice_mut_custom`. -/
def try_as_slice_custom (align : Nat) (s : Slice) (validator : Nat → Bool) :
    Except InvalidSliceError Slice :=
  match try_as_slice_mut_custom align s validator with
  | .ok slice => .ok slice
  | .error e => .error e

/-- Embeds `Slice::try_as_slice_mut`: the always-true validator. -/
def try_as_slice_mut (align : Nat) (s : Slice) : Except InvalidSliceError Slice :=
  match try_as_slice_mut_custom align s (fun _ => true) with
  | .ok slice => .ok slice
  | .error e => .error e

/-- Embeds `Slice::try_as_slice`: the always-true validator. -/
def try_as_slice (align : Nat) (s : Slice) : Except InvalidSliceError Slice :=
  match try_as_slice_custom align s (fun _ => true) with
  | .ok slice => .ok slice
  | .error e => .error e

end Slice

/-- Reads `len` bytes of memory starting at address `ptr`; memory is a
function from addresses to byte values (reduced mod 256). -/
def readBytes (mem : Nat → Nat) (ptr len : Nat) : List Nat :=
  (List.range len).map (fun i => mem (ptr + i) % 256)

/-- A UTF-8 continuation byte: `0x80..=0xBF`. -/
def utf8Cont (b : Nat) : Bool :=
  0x80 ≤ b ∧ b ≤ 0xBF

/-- Admissible second byte of a three-byte UTF-8 sequence, per the match
in `core::str::validations::run_utf8_validation` (excludes overlong
encodings and surrogates). -/
def utf8Second3 (first b : Nat) : Bool :=
  (first = 0xE0 ∧ 0xA0 ≤ b ∧ b ≤ 0xBF) ∨
  (0xE1 ≤ first ∧ first ≤ 0xEC ∧ 0x80 ≤ b ∧ b ≤ 0xBF) ∨
  (first = 0xED ∧ 0x80 ≤ b ∧ b ≤ 0x9F) ∨
  (0xEE ≤ first ∧ first ≤ 0xEF ∧ 0x80 ≤ b ∧ b ≤ 0xBF)

/-- Admissible second byte of a four-byte UTF-8 sequence, per the match
in `core::str::validations::run_utf8_validation` (excludes overlong
encodings and code points beyond U+10FFFF). -/
def utf8Second4 (first b : Nat) : Bool :=
  (first = 0xF0 ∧ 0x90 ≤ b ∧ b ≤ 0xBF) ∨
  (0xF1 ≤ first ∧ first ≤ 0xF3 ∧ 0x80 ≤ b ∧ b ≤ 0xBF) ∨
  (first = 0xF4 ∧ 0x80 ≤ b ∧ b ≤ 0x8F)

/-- Models the well-formedness check of `core::str::from_utf8` on a byte
sequence (validation logic of `run_utf8_validation`). -/
def validUtf8 : List Nat → Bool
  | [] => true
  | b :: rest =>
    if b < 0x80 then validUtf8 rest
    else if 0xC2 ≤ b ∧ b ≤ 0xDF then
      match rest with
      | c1 :: rest2 => utf8Cont c1 && validUtf8 rest2
      | [] => false
    else if 0xE0 ≤ b ∧ b ≤ 0xEF then
      match rest with
      | c1 :: c2 :: rest2 => utf8Second3 b c1 && utf8Cont c2 && validUtf8 rest2
      | _ => false
    else if 0xF0 ≤ b ∧ b ≤ 0xF4 then
      match rest with
      | c1 :: c2 :: c3 :: rest2 =>
          utf8Second4 b c1 && utf8Cont c2 && utf8Cont c3 && validUtf8 rest2
      | _ => false
    else false

/-- Embeds `enum InvalidStrError` from `src/ffi/str.rs`. -/
inductive InvalidStrError where
  | InvalidSliceError (e : InvalidSliceError)
  | Utf8Error
deriving DecidableEq, Repr

/-- Embeds `InvalidStrError::into_err`. -/
def InvalidStrError.into_err : InvalidStrError → ErrorStatus
  | .InvalidSliceError e => e.into_err
  | .Utf8Error => ErrorStatus.InvalidStr

/-- Embeds `struct Str(Slice<u8>)` from `src/ffi/str.rs`. -/
structure Str where
  bytes : Slice
deriving DecidableEq, Repr

namespace Str

/-- Embeds `Str::try_as_str_mut_custom`: run the four slice checks on the
underlying byte slice (alignment of `u8` is 1), then check UTF-8
well-formedness of the pointed-to bytes; on success the produced string
view is represented by its byte contents. -/
def try_as_str_mut_custom (mem : Nat → Nat) (s : Str) (validator : Nat → Bool) :
    Except InvalidStrError (List Nat) :=
  match s.bytes.try_as_slice_mut_custom 1 validator with
  | .error e => .error (.InvalidSliceError e)
  | .ok byte_slice =>
    let content := readBytes mem byte_slice.ptr byte_slice.len
    if validUtf8 content then .ok content else .error .Utf8Error

/-- Embeds `Str::try_as_str_custom`: match-delegation to
`try_as_str_mut_custom`. -/
def try_as_str_custom (mem : Nat → Nat) (s : Str) (validator : Nat → Bool) :
    Except InvalidStrError (List Nat) :=
  match try_as_str_mut_custom mem s validator with
  | .ok str => .ok str
  | .error e => .error e

/-- Embeds `Str::try_as_str`: the always-true validator. -/
def try_as_str (mem : Nat → Nat) (s : Str) : Except InvalidStrError (List Nat) :=
  match try_as_str_custom mem s (fun _ => true) with
  | .ok str => .ok str
  | .error e => .error e

/-- Embeds `Str::try_as_str_mut`: the always-true validator. -/
def try_as_str_mut (mem : Nat → Nat) (s : Str) : Except InvalidStrError (List Nat) :=
  match try_as_str_mut_custom mem s (fun _ => true) with
  | .ok str => .ok str
  | .error e => .error e

end Str

/-- The validation loop of `Slice::<Slice<T>>::try_into_slices_ptr_mut`:
validate each inner slice in increasing index order, short-circuiting on
the first failure (the `?` operator in the loop body).  The in-place
store `results[i] = ...` rewrites the element with an identical
(pointer, length) bit pattern, so later iterations observe the original
element values; the loop is therefore a pure left-to-right traversal. -/
def validateInnerSlices (align : Nat) (validator : Nat → Bool) :
    List Slice → Except InvalidSliceError (List Slice)
  | [] => .ok []
  | s :: rest =>
    match s.try_as_slice_mut_custom align validator with
    | .error e => .error e
    | .ok v =>
      match validateInnerSlices align validator rest with
      | .error e => .error e
      | .ok vs => .ok (v :: vs)

/-- Embeds `Slice::<Slice<T>>::try_into_slices_ptr_mut`: validate the
outer slice first (its element type `Slice<T>` has pointer alignment,
passed as `outerAlign`), then every inner element in order.  The inner
`Slice` records stored in the outer buffer are passed as the list
`elems` (the model has no heap); the code reads exactly the elements of
the outer buffer, in index order. -/
def Slice.try_into_slices_ptr_mut (outerAlign innerAlign : Nat) (outer : Slice)
    (elems : List Slice) (validator : Nat → Bool) :
    Except InvalidSliceError (List Slice) :=
  match outer.try_as_slice_mut_custom outerAlign validator with
  | .error e => .error e
  | .ok _ => validateInnerSlices innerAlign validator elems

/-- The validation loop of `Slice::<Str>::try_into_str_slices_mut`:
validate each inner `Str` via `try_as_str_custom` in increasing index
order, short-circuiting on the first failure. -/
def validateInnerStrs (mem : Nat → Nat) (validator : Nat → Bool) :
    List Str → Except InvalidStrError (List (List Nat))
  | [] => .ok []
  | s :: rest =>
    match s.try_as_str_custom mem validator with
    | .error e => .error e
    | .ok v =>
      match validateInnerStrs mem validator rest with
      | .error e => .error e
      | .ok vs => .ok (v :: vs)

/-- Embeds `Slice::<Str>::try_into_str_slices_mut`: validate the outer
slice first (element type `Str` has pointer alignment, passed as
`outerAlign`), then every inner `Str` in order. -/
def Slice.try_into_str_slices_mut (outerAlign : Nat) (mem : Nat → Nat)
    (outer : Slice) (elems : List Str) (validator : Nat → Bool) :
    Except InvalidStrError (List (List Nat)) :=
  match outer.try_as_slice_mut_custom outerAlign validator with
  | .error e => .error (.InvalidSliceError e)
  | .ok _ => validateInnerStrs mem validator elems

/-- Embeds `trait NotZeroable` from `src/ffi/mod.rs`. -/
class NotZeroable (T : Type) where
  is_zero : T → Bool

/-- Embeds `impl<T> NotZeroable for Slice<T>`: `is_zero` is
`ptr.is_null()` (the length field is ignored). -/
instance : NotZeroable Slice where
  is_zero s := s.ptr = 0

/-- Embeds `impl NotZeroable for Str`: delegates to the byte slice. -/
instance : NotZeroable Str where
  is_zero s := NotZeroable.is_zero s.bytes

/-- Embeds `struct OptZero<T: NotZeroable>(T)` from `src/ffi/option.rs`
(`repr(transparent)`). -/
structure OptZero (T : Type) where
  val : T
deriving Repr

namespace OptZero

variable {T : Type} [NotZeroable T]

/-- Embeds `OptZero::some`. -/
def some (x : T) : OptZero T := ⟨x⟩

/-- Embeds `OptZero::none`: stores `core::mem::zeroed()`, the all-zero
bit pattern of `T`, passed explicitly as `zeroed`. -/
def none (zeroed : T) : OptZero T := ⟨zeroed⟩

/-- Embeds `OptZero::from_option` (`zeroed` is the all-zero pattern used
by the `None` arm). -/
def from_option (zeroed : T) (opt : Option T) : OptZero T :=
  match opt with
  | Option.none => none zeroed
  | Option.some x => some x

/-- Embeds `OptZero::into_option`: a payload reporting `is_zero` is
absent. -/
def into_option (o : OptZero T) : Option T :=
  match NotZeroable.is_zero o.val with
  | false => Option.some o.val
  | true => Option.none

/-- Embeds `impl PartialEq for OptZero<T>`: equal when both payloads are
zero or the payloads compare equal; the payload equality of
`T: PartialEq` is passed explicitly as `eq`. -/
def beq (eq : T → T → Bool) (a b : OptZero T) : Bool :=
  (NotZeroable.is_zero a.val && NotZeroable.is_zero b.val) || eq a.val b.val

end OptZero

/-! ## Helper lemmas -/

theorem errorStatus_MAX_eq : ErrorStatus.MAX = 42 := rfl

theorem from_u16_out_of_range (code : Nat) (h : code = 0 ∨ ErrorStatus.MAX < code) :
    ErrorStatus.from_u16 code = ErrorStatus.Unknown := by
  unfold ErrorStatus.from_u16 ErrorStatus.try_from_u16
  rw [if_neg (by rw [errorStatus_MAX_eq] at h ⊢; omega)]

theorem try_ok_in_range (p : Nat) (hp : p ≤ isizeMax) :
    SysResult.try_ok p = some (SysResult.from_isize p) := by
  simp only [SysResult.try_ok, usizeToIsize, SysResult.from_isize]
  rw [if_pos hp]
  rw [if_neg (by omega)]

theorem try_ok_out_of_range (p : Nat) (hlo : isizeMax < p) (hhi : p < usizeCard) :
    SysResult.try_ok p = none := by
  simp only [SysResult.try_ok, usizeToIsize]
  rw [if_neg (show ¬ p ≤ isizeMax by omega)]
  rw [if_pos (show (p : Int) - 2 ^ 64 < 0 by simp only [usizeCard] at hhi; omega)]

theorem into_result_nonneg (w : Int) (h : 0 ≤ w) :
    (SysResult.from_isize w).into_result = .ok w.toNat := by
  simp only [SysResult.into_result, SysResult.from_isize]
  rw [if_neg (by omega)]

/-- For every negative isize word, the internal wrapping negation followed
by the cast to `u16` computes the magnitude reduced mod 2^16 (also at
`isize::MIN`, where the negation wraps). -/
theorem isizeToU16_negWrap (w : Int) (hlo : isizeMin ≤ w) (hneg : w < 0) :
    isizeToU16 (isizeNegWrap w) = (-w).toNat % 2 ^ 16 := by
  unfold isizeNegWrap isizeToU16
  split
  · rename_i hMin
    subst hMin
    decide
  · simp only [isizeMin] at hlo
    norm_num at hlo ⊢
    omega

/-! ## Claim theorems -/

/-- C1: decoding an outcome word never fails: for every isize word `w`,
`SysResult::from_isize(w).into_result()` returns `Ok(w as usize)` when
`w` is non-negative, and when `w` is negative it returns `Err(k)` where
`k` is obtained from the magnitude of `w` (wrapped at `isize::MIN`, and
cast to `u16`, i.e. reduced mod 2^16) through the total
unknown-falls-back conversion `ErrorStatus::from_u16`; decoding is a
total function of the word, with no decode failure for any isize input,
including `isize::MIN` and negative words whose magnitude exceeds
`u16::MAX`. -/
theorem c1_decode_total (w : Int) (hlo : isizeMin ≤ w) (hhi : w ≤ isizeMax) :
    (0 ≤ w → (SysResult.from_isize w).into_result = .ok w.toNat) ∧
    (w < 0 → (SysResult.from_isize w).into_result =
      .error (ErrorStatus.from_u16 ((-w).toNat % 2 ^ 16))) := by
  constructor
  · intro h
    exact into_result_nonneg w h
  · intro h
    simp only [SysResult.into_result, SysResult.from_isize]
    rw [if_pos h, isizeToU16_negWrap w hlo h]

/-- Witness for C1 at the extreme word `isize::MIN`, whose magnitude both
overflows negation and exceeds `u16::MAX`: it decodes, to `Unknown`. -/
theorem c1_decode_total_witness :
    (SysResult.from_isize (-9223372036854775808)).into_result =
      .error (ErrorStatus.from_u16 ((-(-9223372036854775808 : Int)).toNat % 2 ^ 16)) :=
  (c1_decode_total (-9223372036854775808) (by decide) (by decide)).2 (by decide)

/-- C3: for every usize payload `p` with `p ≤ isize::MAX`,
`SysResult::try_ok(p)` succeeds and the produced word decodes back with
`into_result() == Ok(p)`; for every payload `p > isize::MAX`,
`SysResult::try_ok(p)` fails. -/
theorem c3_try_ok_roundtrip (p : Nat) (hp : p < usizeCard) :
    (p ≤ isizeMax →
      SysResult.try_ok p = some (SysResult.from_isize p) ∧
      (SysResult.from_isize p).into_result = .ok p) ∧
    (isizeMax < p → SysResult.try_ok p = none) := by
  constructor
  · intro h
    refine ⟨try_ok_in_range p h, ?_⟩
    rw [into_result_nonneg p (by omega)]
    simp
  · intro h
    exact try_ok_out_of_range p h hp

/-- Witness for C3 at payload 7 (in range) used via the theorem. -/
theorem c3_try_ok_roundtrip_witness :
    SysResult.try_ok 7 = some (SysResult.from_isize 7) ∧
    (SysResult.from_isize 7).into_result = .ok 7 :=
  (c3_try_ok_roundtrip 7 (by decide)).1 (by decide)

/-- C4: for every defined `ErrorStatus` kind `k`,
`SysResult::err(k).into_result() == Err(k)` and
`ErrorStatus::from_u16(k as u16) == k`; for every u16 code outside the
defined range (0, or greater than the maximum defined code),
`ErrorStatus::from_u16(code) == Unknown`. -/
theorem c4_error_roundtrip :
    (∀ k : ErrorStatus,
      (SysResult.err k).into_result = .error k ∧
      ErrorStatus.from_u16 k.toU16 = k) ∧
    (∀ code : Nat, code = 0 ∨ ErrorStatus.MAX < code →
      ErrorStatus.from_u16 code = ErrorStatus.Unknown) := by
  constructor
  · intro k
    cases k <;> exact ⟨rfl, rfl⟩
  · exact from_u16_out_of_range

/-- Witness for C4: the code 43 just beyond the defined range decodes to
`Unknown`, and the defined kind `Generic` round-trips. -/
theorem c4_error_roundtrip_witness :
    ErrorStatus.from_u16 43 = ErrorStatus.Unknown ∧
    (SysResult.err ErrorStatus.Generic).into_result = .error ErrorStatus.Generic :=
  ⟨c4_error_roundtrip.2 43 (Or.inr (by decide)),
   (c4_error_roundtrip.1 ErrorStatus.Generic).1⟩

/-- C8: `SysResult::ok(p)` treats an out-of-range payload as a fatal
contract violation: for every usize `p ≤ isize::MAX` it returns the same
word as `try_ok(p)` (and does return one), and for every
`p > isize::MAX` it panics (modelled by `none`) rather than silently
wrapping the payload into the negative half of the word. -/
theorem c8_ok_fatal_out_of_range (p : Nat) (hp : p < usizeCard) :
    (p ≤ isizeMax →
      SysResult.ok p = SysResult.try_ok p ∧
      SysResult.ok p = some (SysResult.from_isize p)) ∧
    (isizeMax < p → SysResult.ok p = none) := by
  have hdelegate : SysResult.ok p = SysResult.try_ok p := by
    unfold SysResult.ok
    cases h : SysResult.try_ok p <;> simp
  constructor
  · intro h
    exact ⟨hdelegate, by rw [hdelegate, try_ok_in_range p h]⟩
  · intro h
    rw [hdelegate, try_ok_out_of_range p h hp]

/-- Witness for C8 at the out-of-range payload 2^63 (panic branch) via
the theorem. -/
theorem c8_ok_fatal_out_of_range_witness :
    SysResult.ok (2 ^ 63) = none :=
  (c8_ok_fatal_out_of_range (2 ^ 63) (by decide)).2 (by decide)

/-- C2: `Slice::try_as_slice_mut_custom` (and the `try_as_slice` /
`try_as_slice_mut` wrappers, which use an always-true validator)
performs its four checks in strict order and short-circuits on the first
failure: a null pointer yields `PtrIsNull` regardless of the length; a
non-null misaligned pointer yields `PtrNotAligned` for any length,
including 0; a length above `isize::MAX` with a non-null aligned pointer
yields `LenTooLarge`; a validator returning false yields `Other` only
after the first three checks pass; and for
`Str::try_as_str_mut_custom` the UTF-8 check runs only after all four
slice checks pass, yielding `Utf8Error` exactly on malformed bytes. -/
theorem c2_validation_order (align : Nat) (s : Slice) (v : Nat → Bool)
    (mem : Nat → Nat) (st : Str) (vs : Nat → Bool) :
    (s.ptr = 0 → s.try_as_slice_mut_custom align v = .error .PtrIsNull) ∧
    (s.ptr ≠ 0 → s.ptr % align ≠ 0 →
      s.try_as_slice_mut_custom align v = .error .PtrNotAligned) ∧
    (s.ptr ≠ 0 → s.ptr % align = 0 → isizeMax < s.len →
      s.try_as_slice_mut_custom align v = .error .LenTooLarge) ∧
    (s.ptr ≠ 0 → s.ptr % align = 0 → s.len ≤ isizeMax → v s.ptr = false →
      s.try_as_slice_mut_custom align v = .error .Other) ∧
    (s.ptr ≠ 0 → s.ptr % align = 0 → s.len ≤ isizeMax → v s.ptr = true →
      s.try_as_slice_mut_custom align v = .ok s) ∧
    (s.try_as_slice_mut align = s.try_as_slice_mut_custom align (fun _ => true)) ∧
    (s.try_as_slice align = s.try_as_slice_mut_custom align (fun _ => true)) ∧
    (∀ e, st.bytes.try_as_slice_mut_custom 1 vs = .error e →
      st.try_as_str_mut_custom mem vs = .error (.InvalidSliceError e)) ∧
    (st.bytes.ptr ≠ 0 → st.bytes.len ≤ isizeMax → vs st.bytes.ptr = true →
      (st.try_as_str_mut_custom mem vs = .error .Utf8Error ↔
        validUtf8 (readBytes mem st.bytes.ptr st.bytes.len) = false)) := by
  refine ⟨?_, ?_, ?_, ?_, ?_, ?_, ?_, ?_, ?_⟩
  · intro h1
    simp [Slice.try_as_slice_mut_custom, h1]
  · intro h1 h2
    simp [Slice.try_as_slice_mut_custom, h1, h2]
  · intro h1 h2 h3
    simp [Slice.try_as_slice_mut_custom, h1, h2, h3]
  · intro h1 h2 h3 h4
    simp [Slice.try_as_slice_mut_custom, h1, h2, Nat.not_lt.mpr h3, h4]
  · intro h1 h2 h3 h4
    simp [Slice.try_as_slice_mut_custom, h1, h2, Nat.not_lt.mpr h3, h4]
  · unfold Slice.try_as_slice_mut
    cases h : s.try_as_slice_mut_custom align (fun _ => true) <;> simp
  · unfold Slice.try_as_slice Slice.try_as_slice_custom
    cases h : s.try_as_slice_mut_custom align (fun _ => true) <;> simp
  · intro e he
    unfold Str.try_as_str_mut_custom
    rw [he]
  · intro h1 h2 h3
    have hok : st.bytes.try_as_slice_mut_custom 1 vs = .ok st.bytes := by
      simp [Slice.try_as_slice_mut_custom, h1, Nat.mod_one, Nat.not_lt.mpr h2, h3]
    unfold Str.try_as_str_mut_custom
    rw [hok]
    cases hu : validUtf8 (readBytes mem st.bytes.ptr st.bytes.len) <;> simp [hu]

/-- Witness for C2: a non-null but misaligned pointer with length 0 is
rejected as `PtrNotAligned`, via the theorem. -/
theorem c2_validation_order_witness :
    Slice.try_as_slice_mut_custom 4 ⟨2, 0⟩ (fun _ => true) = .error .PtrNotAligned :=
  (c2_validation_order 4 ⟨2, 0⟩ (fun _ => true) (fun _ => 0) ⟨⟨0, 0⟩⟩
    (fun _ => true)).2.1 (by decide) (by decide)

/-- C10: `Slice::from_raw_parts(ptr, len)` succeeds exactly when the
pointer is non-null and the length is at most `isize::MAX`; it performs
no alignment check, so a misaligned non-null pointer with an in-range
length is accepted by construction. -/
theorem c10_from_raw_parts (ptr len : Nat) :
    ((Slice.from_raw_parts ptr len).isSome ↔ ptr ≠ 0 ∧ len ≤ isizeMax) ∧
    (∀ align, ptr ≠ 0 → len ≤ isizeMax → ptr % align ≠ 0 →
      Slice.from_raw_parts ptr len = some ⟨ptr, len⟩) := by
  constructor
  · unfold Slice.from_raw_parts
    by_cases h : ptr ≠ 0 ∧ len ≤ isizeMax <;> simp [h]
  · intro align h1 h2 h3
    unfold Slice.from_raw_parts
    rw [if_pos ⟨h1, h2⟩]

/-- Witness for C10: the odd address 1 with alignment 8 and length 0 is
accepted, via the theorem. -/
theorem c10_from_raw_parts_witness :
    Slice.from_raw_parts 1 0 = some ⟨1, 0⟩ :=
  (c10_from_raw_parts 1 0).2 8 (by decide) (by decide) (by decide)

theorem validateInnerSlices_first_error (align : Nat) (v : Nat → Bool)
    (pre : List Slice) (bad : Slice) (post : List Slice) (e : InvalidSliceError)
    (hpre : ∀ x ∈ pre, x.try_as_slice_mut_custom align v = .ok x)
    (hbad : bad.try_as_slice_mut_custom align v = .error e) :
    validateInnerSlices align v (pre ++ bad :: post) = .error e := by
  induction pre with
  | nil =>
    simp only [List.nil_append, validateInnerSlices]
    rw [hbad]
  | cons a rest ih =>
    have ha := hpre a (by simp)
    have ih2 := ih (fun x hx => hpre x (by simp [hx]))
    simp only [List.cons_append, validateInnerSlices, List.append_eq]
    rw [ha, ih2]

theorem validateInnerStrs_first_error (mem : Nat → Nat) (v : Nat → Bool)
    (pre : List Str) (bad : Str) (post : List Str) (e : InvalidStrError)
    (hpre : ∀ x ∈ pre, ∃ c, x.try_as_str_custom mem v = .ok c)
    (hbad : bad.try_as_str_custom mem v = .error e) :
    validateInnerStrs mem v (pre ++ bad :: post) = .error e := by
  induction pre with
  | nil =>
    simp only [List.nil_append, validateInnerStrs]
    rw [hbad]
  | cons a rest ih =>
    obtain ⟨c, hc⟩ := hpre a (by simp)
    have ih2 := ih (fun x hx => hpre x (by simp [hx]))
    simp only [List.cons_append, validateInnerStrs, List.append_eq]
    rw [hc, ih2]

/-- C5: nested validation (`Slice::<Slice<T>>::try_into_slices_ptr_mut`
and `Slice::<Str>::try_into_str_slices_mut`) validates the outer slice
first — an outer failure is returned with no inner element validated —
then validates the inner elements in increasing index order and returns
the error of the first failing inner element, regardless of the elements
after it. -/
theorem c5_nested_short_circuit :
    (∀ (oa ia : Nat) (outer : Slice) (elems : List Slice) (v : Nat → Bool)
        (e : InvalidSliceError),
      outer.try_as_slice_mut_custom oa v = .error e →
      Slice.try_into_slices_ptr_mut oa ia outer elems v = .error e) ∧
    (∀ (oa ia : Nat) (outer : Slice) (pre : List Slice) (bad : Slice)
        (post : List Slice) (v : Nat → Bool) (e : InvalidSliceError),
      outer.try_as_slice_mut_custom oa v = .ok outer →
      (∀ x ∈ pre, x.try_as_slice_mut_custom ia v = .ok x) →
      bad.try_as_slice_mut_custom ia v = .error e →
      Slice.try_into_slices_ptr_mut oa ia outer (pre ++ bad :: post) v = .error e) ∧
    (∀ (oa : Nat) (mem : Nat → Nat) (outer : Slice) (elems : List Str)
        (v : Nat → Bool) (e : InvalidSliceError),
      outer.try_as_slice_mut_custom oa v = .error e →
      Slice.try_into_str_slices_mut oa mem outer elems v =
        .error (.InvalidSliceError e)) ∧
    (∀ (oa : Nat) (mem : Nat → Nat) (outer : Slice) (pre : List Str) (bad : Str)
        (post : List Str) (v : Nat → Bool) (e : InvalidStrError),
      outer.try_as_slice_mut_custom oa v = .ok outer →
      (∀ x ∈ pre, ∃ c, x.try_as_str_custom mem v = .ok c) →
      bad.try_as_str_custom mem v = .error e →
      Slice.try_into_str_slices_mut oa mem outer (pre ++ bad :: post) v = .error e) := by
  refine ⟨?_, ?_, ?_, ?_⟩
  · intro oa ia outer elems v e he
    unfold Slice.try_into_slices_ptr_mut
    rw [he]
  · intro oa ia outer pre bad post v e houter hpre hbad
    unfold Slice.try_into_slices_ptr_mut
    rw [houter, validateInnerSlices_first_error ia v pre bad post e hpre hbad]
  · intro oa mem outer elems v e he
    unfold Slice.try_into_str_slices_mut
    rw [he]
  · intro oa mem outer pre bad post v e houter hpre hbad
    unfold Slice.try_into_str_slices_mut
    rw [houter, validateInnerStrs_first_error mem v pre bad post e hpre hbad]

/-- Witness for C5: with inner index 0 null and inner index 1 misaligned,
the nested conversion reports the index-0 error `PtrIsNull`, not the
index-1 error `PtrNotAligned`, via the theorem. -/
theorem c5_nested_short_circuit_witness :
    Slice.try_into_slices_ptr_mut 8 2 ⟨8, 2⟩ [⟨0, 1⟩, ⟨3, 1⟩] (fun _ => true) =
      .error .PtrIsNull :=
  c5_nested_short_circuit.2.1 8 2 ⟨8, 2⟩ [] ⟨0, 1⟩ [⟨3, 1⟩] (fun _ => true)
    .PtrIsNull rfl (fun x hx => absurd hx (List.not_mem_nil x)) rfl

/-- C6: for every `NotZeroable` payload `v` that is not zero,
`OptZero::from_option(Some(v)).into_option() == Some(v)`;
`OptZero::from_option(None).into_option() == None` and the stored
representation of `none()` is the all-zero bit pattern; and for a
payload equal to the zero pattern (the misuse case),
`OptZero::some(zero).into_option() == None` — the lossy collision with
absent.  The hypothesis `hz` is the `NotZeroable` contract that the
all-zero pattern reports `is_zero`, satisfied by every implementation in
the crate. -/
theorem c6_optzero_roundtrip {T : Type} [NotZeroable T] (zeroed : T)
    (hz : NotZeroable.is_zero zeroed = true) (v : T)
    (hv : NotZeroable.is_zero v = false) :
    (OptZero.from_option zeroed (Option.some v)).into_option = Option.some v ∧
    (OptZero.from_option zeroed Option.none).into_option = Option.none ∧
    (OptZero.from_option zeroed Option.none).val = zeroed ∧
    (OptZero.some zeroed).into_option = Option.none := by
  refine ⟨?_, ?_, rfl, ?_⟩
  · simp [OptZero.from_option, OptZero.some, OptZero.into_option, hv]
  · simp [OptZero.from_option, OptZero.none, OptZero.into_option, hz]
  · simp [OptZero.some, OptZero.into_option, hz]

/-- Witness for C6 at the crate instance `NotZeroable for Slice<T>`
(zero test: null pointer; all-zero pattern: null pointer, length 0) and
the present value with address 4 and length 2, via the theorem. -/
theorem c6_optzero_roundtrip_witness :
    (OptZero.from_option (⟨0, 0⟩ : Slice) (Option.some ⟨4, 2⟩)).into_option =
      Option.some ⟨4, 2⟩ ∧
    (OptZero.from_option (⟨0, 0⟩ : Slice) Option.none).into_option = Option.none ∧
    (OptZero.from_option (⟨0, 0⟩ : Slice) Option.none).val = ⟨0, 0⟩ ∧
    (OptZero.some (⟨0, 0⟩ : Slice)).into_option = Option.none :=
  c6_optzero_roundtrip (⟨0, 0⟩ : Slice) (by decide) ⟨4, 2⟩ (by decide)

/-- C9: `OptZero` equality holds exactly when both payloads report
`is_zero` or the payloads compare equal under the payload equality of
`T`; in particular two absent values compare equal regardless of stored
bits the zero test ignores. -/
theorem c9_optzero_eq {T : Type} [NotZeroable T] (eq : T → T → Bool)
    (a b : OptZero T) :
    (OptZero.beq eq a b = true ↔
      ((NotZeroable.is_zero a.val = true ∧ NotZeroable.is_zero b.val = true) ∨
        eq a.val b.val = true)) ∧
    (NotZeroable.is_zero a.val = true → NotZeroable.is_zero b.val = true →
      OptZero.beq eq a b = true) := by
  constructor
  · simp [OptZero.beq]
  · intro h1 h2
    simp [OptZero.beq, h1, h2]

/-- Witness for C9 at the crate instance `NotZeroable for Slice<T>`: two
null-pointer values with different length fields (structurally unequal
payloads) compare equal, via the theorem. -/
theorem c9_optzero_eq_witness :
    OptZero.beq (fun x y : Slice => decide (x = y)) ⟨⟨0, 1⟩⟩ ⟨⟨0, 2⟩⟩ = true ∧
    decide ((⟨0, 1⟩ : Slice) = ⟨0, 2⟩) = false :=
  ⟨(c9_optzero_eq (fun x y : Slice => decide (x = y)) ⟨⟨0, 1⟩⟩ ⟨⟨0, 2⟩⟩).2
      (by decide) (by decide),
   by decide⟩

/-- C7 counterexample: the mapping `into_err` from validation failure
reasons to outcome codes is not one-to-one over the five reasons —
`PtrIsNull` and `PtrNotAligned` are distinct reasons mapped to the same
code `InvalidPtr` (and `Other` joins them). -/
theorem c7_counterexample :
    InvalidSliceError.PtrIsNull.into_err = InvalidSliceError.PtrNotAligned.into_err ∧
    InvalidSliceError.PtrIsNull ≠ InvalidSliceError.PtrNotAligned ∧
    InvalidSliceError.Other.into_err = InvalidSliceError.PtrIsNull.into_err := by
  exact ⟨rfl, by decide, rfl⟩

/-- C7 (amended): `into_err` maps each validation failure reason onto an
outcome code as the spec describes — the pointer failures `PtrIsNull`
and `PtrNotAligned`, and the validator rejection `Other`, map to
`InvalidPtr`; `LenTooLarge` maps to `StrTooLong`; `Utf8Error` maps to
`InvalidStr`; a wrapped slice failure keeps its slice mapping — and the
induced mapping on the three failure categories (pointer problems,
oversized length, malformed text) is one-to-one: the three target codes
are pairwise distinct.  It is not injective on the five individual
reasons (see the counterexample). -/
theorem c7_into_err_mapping :
    InvalidSliceError.PtrIsNull.into_err = ErrorStatus.InvalidPtr ∧
    InvalidSliceError.PtrNotAligned.into_err = ErrorStatus.InvalidPtr ∧
    InvalidSliceError.Other.into_err = ErrorStatus.InvalidPtr ∧
    InvalidSliceError.LenTooLarge.into_err = ErrorStatus.StrTooLong ∧
    InvalidStrError.Utf8Error.into_err = ErrorStatus.InvalidStr ∧
    (InvalidStrError.InvalidSliceError .PtrIsNull).into_err = ErrorStatus.InvalidPtr ∧
    (InvalidStrError.InvalidSliceError .PtrNotAligned).into_err = ErrorStatus.InvalidPtr ∧
    (InvalidStrError.InvalidSliceError .Other).into_err = ErrorStatus.InvalidPtr ∧
    (InvalidStrError.InvalidSliceError .LenTooLarge).into_err = ErrorStatus.StrTooLong ∧
    ErrorStatus.InvalidPtr ≠ ErrorStatus.StrTooLong ∧
    ErrorStatus.InvalidPtr ≠ ErrorStatus.InvalidStr ∧
    ErrorStatus.StrTooLong ≠ ErrorStatus.InvalidStr := by
  refine ⟨rfl, rfl, rfl, rfl, rfl, rfl, rfl, rfl, rfl, ?_, ?_, ?_⟩ <;> decide

end SafaAbi
